import Mathlib

/-!
Verification development for the WhatsApp connection-session manager of the
codeia-backend repository.

The embedding covers:
* `WWeb` — the manager in `src/services/whatsapp-manager.service.ts`
  (whatsapp-web.js based: live-client map, session registry, QR timeout
  scheduler, message handler with history assembly).
* `Baileys` — the Baileys-based manager variant
  (socket map, `connection.update` close handler with the
  reconnect-vs-terminal decision, `stopClient`, message pipeline filters).
* `Auth` — the credential store adapter in `src/lib/baileys-prisma-auth.ts`
  (batched transactional key writes).

Maps keyed by session id are embedded as association lists; JavaScript
`Map.set` is replace-or-add, `Map.delete` removes the key, `Map.has` is key
membership.
-/

/-- In-memory registry entry: the `SessionInfo` interface of the manager.
`qrCode` and `phoneNumber` are nullable in the source, hence `Option`. -/
structure SessionInfo where
  status : String
  qrCode : Option String
  phoneNumber : Option String
  sessionName : String
deriving Repr, DecidableEq

namespace JsMap

/-- JS `Map.get` on a map embedded as an association list. -/
def get (m : List (String × α)) (k : String) : Option α :=
  match m with
  | [] => none
  | (k', v) :: rest => if k' = k then some v else get rest k

/-- JS `Map.set`: replace the binding for `k` if present, else add it. -/
def set (m : List (String × α)) (k : String) (v : α) : List (String × α) :=
  match m with
  | [] => [(k, v)]
  | (k', v') :: rest => if k' = k then (k, v) :: rest else (k', v') :: set rest k v

/-- JS `Map.delete`: remove the binding for `k`. -/
def del (m : List (String × α)) (k : String) : List (String × α) :=
  match m with
  | [] => []
  | (k', v') :: rest => if k' = k then del rest k else (k', v') :: del rest k

/-- JS `Map.has`. -/
def has (m : List (String × α)) (k : String) : Bool :=
  match m with
  | [] => false
  | (k', _) :: rest => k' = k || has rest k

/-- Number of bindings a key has (an association list can in principle hold
duplicates; a well-formed JS map holds at most one). -/
def keyCount (m : List (String × α)) (k : String) : Nat :=
  match m with
  | [] => 0
  | (k', _) :: rest => (if k' = k then 1 else 0) + keyCount rest k

theorem keyCount_set (m : List (String × α)) (k : String) (v : α) :
    keyCount (set m k v) k = max 1 (keyCount m k) := by
  induction m with
  | nil => simp [set, keyCount]
  | cons hd tl ih =>
    obtain ⟨k', v'⟩ := hd
    by_cases h : k' = k
    · subst h
      simp [set, keyCount, Nat.succ_max_succ, Nat.max_comm]
    · simp [set, keyCount, h, ih]

theorem has_set_self (m : List (String × α)) (k : String) (v : α) :
    has (set m k v) k = true := by
  induction m with
  | nil => simp [set, has]
  | cons hd tl ih =>
    obtain ⟨k', v'⟩ := hd
    by_cases h : k' = k
    · subst h; simp [set, has]
    · simp [set, has, h, ih]

theorem get_set_self (m : List (String × α)) (k : String) (v : α) :
    get (set m k v) k = some v := by
  induction m with
  | nil => simp [set, get]
  | cons hd tl ih =>
    obtain ⟨k', v'⟩ := hd
    by_cases h : k' = k
    · subst h; simp [set, get]
    · simp [set, get, h, ih]

theorem has_del_self (m : List (String × α)) (k : String) :
    has (del m k) k = false := by
  induction m with
  | nil => simp [del, has]
  | cons hd tl ih =>
    obtain ⟨k', v'⟩ := hd
    by_cases h : k' = k
    · subst h; simpa [del] using ih
    · simp [del, has, h, ih]

theorem keyCount_del (m : List (String × α)) (k : String) :
    keyCount (del m k) k = 0 := by
  induction m with
  | nil => simp [del, keyCount]
  | cons hd tl ih =>
    obtain ⟨k', v'⟩ := hd
    by_cases h : k' = k
    · subst h; simpa [del] using ih
    · simp [del, keyCount, h, ih]

theorem has_iff_keyCount_pos (m : List (String × α)) (k : String) :
    has m k = true ↔ 0 < keyCount m k := by
  induction m with
  | nil => simp [has, keyCount]
  | cons hd tl ih =>
    obtain ⟨k', v'⟩ := hd
    by_cases h : k' = k
    · subst h; simp [has, keyCount]
    · simp [has, keyCount, h, ih]

theorem mem_set (m : List (String × α)) (k : String) (v : α) :
    ∀ p ∈ set m k v, p = (k, v) ∨ p ∈ m := by
  induction m with
  | nil => simp [set]
  | cons hd tl ih =>
    obtain ⟨k', v'⟩ := hd
    by_cases h : k' = k
    · subst h
      intro p hp
      simp only [set, if_true, eq_self_iff_true, List.mem_cons] at hp
      rcases hp with hp | hp
      · exact Or.inl hp
      · exact Or.inr (List.mem_cons_of_mem _ hp)
    · intro p hp
      simp only [set, if_neg h, List.mem_cons] at hp
      rcases hp with hp | hp
      · exact Or.inr (hp ▸ List.mem_cons_self _ _)
      · rcases ih p hp with h' | h'
        · exact Or.inl h'
        · exact Or.inr (List.mem_cons_of_mem _ h')

theorem mem_del (m : List (String × α)) (k : String) :
    ∀ p ∈ del m k, p ∈ m := by
  induction m with
  | nil => simp [del]
  | cons hd tl ih =>
    obtain ⟨k', v'⟩ := hd
    by_cases h : k' = k
    · subst h
      intro p hp
      simp only [del, if_true, eq_self_iff_true] at hp
      exact List.mem_cons_of_mem _ (ih p hp)
    · intro p hp
      simp only [del, if_neg h, List.mem_cons] at hp
      rcases hp with hp | hp
      · exact hp ▸ List.mem_cons_self _ _
      · exact List.mem_cons_of_mem _ (ih p hp)

end JsMap

namespace WWeb

/-- Process-local state of the `WhatsAppManager` in
`src/services/whatsapp-manager.service.ts`: the live-client map `clients`
(only the keys matter for the lifecycle logic, so clients are embedded by
their session id), the status registry `sessions`, and the `qrTimeouts`
map (embedded by its key set: a key is present iff a timer is armed). -/
structure MState where
  clients : List (String × Unit)
  sessions : List (String × SessionInfo)
  qrTimeouts : List (String × Unit)
deriving Repr, DecidableEq

/-- Outcome of a `prisma.whatsAppSession.update` call as the handlers
distinguish it: success, the P2025 record-not-found error, or any other
error. -/
inductive DbResult where
  | ok
  | notFound
  | otherError
deriving Repr, DecidableEq

/-- Embeds `stopClient(sessionId)`: clear the QR timer, destroy and remove the
client if present, write DISCONNECTED to the registry keeping the old
session name (`oldSession?.sessionName || 'Sessão'`), best-effort persist. -/
def stopClient (st : MState) (sessionId : String) : MState :=
  let st1 : MState := { st with qrTimeouts := JsMap.del st.qrTimeouts sessionId }
  let st2 : MState := { st1 with clients := JsMap.del st1.clients sessionId }
  let oldName :=
    match JsMap.get st2.sessions sessionId with
    | some info => if info.sessionName = "" then "Sessão" else info.sessionName
    | none => "Sessão"
  { st2 with
    sessions :=
      JsMap.set st2.sessions sessionId ⟨"DISCONNECTED", none, none, oldName⟩ }

/-- The synchronous prefix of `startClient`: the idempotency guard
(`if (this.clients.has(sessionId)) return`), the STARTING registry write,
and the registration of the new client in the live map (the client is added
before `initialize` is awaited). -/
def startClient (st : MState) (sessionId sessionName : String) : MState :=
  if JsMap.has st.clients sessionId then st
  else
    let st1 : MState :=
      { st with sessions :=
          JsMap.set st.sessions sessionId ⟨"STARTING", none, none, sessionName⟩ }
    { st1 with clients := JsMap.set st1.clients sessionId () }

/-- The `qr` event handler: write QRCODE with the rendered image to the
registry; on a P2025 persistence error stop the client and return; otherwise
arm the QR timer only if it is not already armed. The second component
counts `stopClient` invocations performed by the handler. -/
def onQr (st : MState) (sessionId qrImage sessionName : String)
    (db : DbResult) : MState × Nat :=
  let st1 : MState :=
    { st with sessions :=
        JsMap.set st.sessions sessionId ⟨"QRCODE", some qrImage, none, sessionName⟩ }
  match db with
  | .notFound => (stopClient st1 sessionId, 1)
  | _ =>
    if JsMap.has st1.qrTimeouts sessionId then (st1, 0)
    else ({ st1 with qrTimeouts := JsMap.set st1.qrTimeouts sessionId () }, 0)

/-- The `ready` event handler: disarm the QR timer, write CONNECTED with
the phone number, persist; on P2025 stop the client. -/
def onReady (st : MState) (sessionId phone sessionName : String)
    (db : DbResult) : MState × Nat :=
  let st1 : MState := { st with qrTimeouts := JsMap.del st.qrTimeouts sessionId }
  let st2 : MState :=
    { st1 with sessions :=
        JsMap.set st1.sessions sessionId ⟨"CONNECTED", none, some phone, sessionName⟩ }
  match db with
  | .notFound => (stopClient st2 sessionId, 1)
  | _ => (st2, 0)

/-- The `auth_failure` event handler: disarm the QR timer and stop. -/
def onAuthFailure (st : MState) (sessionId : String) : MState × Nat :=
  let st1 : MState := { st with qrTimeouts := JsMap.del st.qrTimeouts sessionId }
  (stopClient st1 sessionId, 1)

/-- The `disconnected` event handler: disarm the QR timer, remove the
client from the live map, write DISCONNECTED (persistence errors are
swallowed). -/
def onDisconnected (st : MState) (sessionId sessionName : String) : MState :=
  let st1 : MState := { st with qrTimeouts := JsMap.del st.qrTimeouts sessionId }
  let st2 : MState := { st1 with clients := JsMap.del st1.clients sessionId }
  { st2 with
    sessions :=
      JsMap.set st2.sessions sessionId ⟨"DISCONNECTED", none, none, sessionName⟩ }

/-- The QR-timeout callback armed by `onQr`: it invokes `stopClient` for
its session. It can only run while its timer is armed (once fired or
cleared, the timer is removed from `qrTimeouts`). -/
def qrTimerFire (st : MState) (sessionId : String) : MState × Nat :=
  (stopClient st sessionId, 1)

/-- The `catch` branch of `startClient`'s `client.initialize()` call:
clear the QR timer, write DISCONNECTED, remove the client. -/
def onInitFailure (st : MState) (sessionId sessionName : String) : MState :=
  let st1 : MState := { st with qrTimeouts := JsMap.del st.qrTimeouts sessionId }
  let st2 : MState :=
    { st1 with sessions :=
        JsMap.set st1.sessions sessionId ⟨"DISCONNECTED", none, none, sessionName⟩ }
  { st2 with clients := JsMap.del st2.clients sessionId }

/-- Embeds `getSessionStatus`: registry lookup defaulting to DISCONNECTED. -/
def getSessionStatus (st : MState) (sessionId : String) : SessionInfo :=
  match JsMap.get st.sessions sessionId with
  | some info => info
  | none => ⟨"DISCONNECTED", none, none, ""⟩

end WWeb

/-- C1 helper: the number of live connection handles a session id has. -/
def liveHandles (st : WWeb.MState) (sessionId : String) : Nat :=
  JsMap.keyCount st.clients sessionId

/-- **C1.** Idempotent start: when a handle already exists `startClient`
is a silent no-op leaving the whole state unchanged; a second start right
after a first one changes nothing; and starting from a state with no
handle for the session id yields exactly one live handle, as does the
double start. -/
theorem startClient_idempotent (st : WWeb.MState) (sessionId sessionName : String) :
    (JsMap.has st.clients sessionId = true →
      WWeb.startClient st sessionId sessionName = st) ∧
    WWeb.startClient (WWeb.startClient st sessionId sessionName) sessionId sessionName
      = WWeb.startClient st sessionId sessionName ∧
    (liveHandles st sessionId = 0 →
      liveHandles (WWeb.startClient st sessionId sessionName) sessionId = 1 ∧
      liveHandles
        (WWeb.startClient (WWeb.startClient st sessionId sessionName) sessionId sessionName)
        sessionId = 1) := by
  refine ⟨fun h => by simp [WWeb.startClient, h], ?_, fun h => ?_⟩
  · by_cases h : JsMap.has st.clients sessionId
    · simp [WWeb.startClient, h]
    · simp [WWeb.startClient, h, JsMap.has_set_self]
  · have hnot : JsMap.has st.clients sessionId = false := by
      by_contra hc
      rw [Bool.not_eq_false, JsMap.has_iff_keyCount_pos] at hc
      simp [liveHandles] at h
      omega
    have h1 : liveHandles (WWeb.startClient st sessionId sessionName) sessionId = 1 := by
      simp [WWeb.startClient, hnot, liveHandles, JsMap.keyCount_set]
      simp [liveHandles] at h
      simp [h]
    have h2 : JsMap.has (WWeb.startClient st sessionId sessionName).clients sessionId = true := by
      simp [WWeb.startClient, hnot, JsMap.has_set_self]
    refine ⟨h1, ?_⟩
    generalize hs1 : WWeb.startClient st sessionId sessionName = s1 at h1 h2 ⊢
    simp [WWeb.startClient, h2, h1]

/-- C1 witness at a concrete state. -/
theorem startClient_idempotent_witness :
    (JsMap.has (WWeb.MState.mk [] [] []).clients "s1" = true →
      WWeb.startClient ⟨[], [], []⟩ "s1" "n" = ⟨[], [], []⟩) ∧
    WWeb.startClient (WWeb.startClient ⟨[], [], []⟩ "s1" "n") "s1" "n"
      = WWeb.startClient ⟨[], [], []⟩ "s1" "n" ∧
    (liveHandles ⟨[], [], []⟩ "s1" = 0 →
      liveHandles (WWeb.startClient ⟨[], [], []⟩ "s1" "n") "s1" = 1 ∧
      liveHandles (WWeb.startClient (WWeb.startClient ⟨[], [], []⟩ "s1" "n") "s1" "n") "s1" = 1) :=
  startClient_idempotent ⟨[], [], []⟩ "s1" "n"

/-- **C4.** QR timeout reclamation: a QRCODE event arms a per-session
timer only if one is not already armed (an armed timer map is left
untouched, and arming from a timer-free state yields exactly one timer);
the timer callback invokes `stopClient` exactly once, after which the
registry status is DISCONNECTED and the timer is disarmed; and a
successful connection (`ready`) disarms the timer for every persistence
outcome, so the armed-timer callback can never run afterwards. -/
theorem qr_timeout_reclamation (st : WWeb.MState)
    (sessionId qrImage sessionName phone : String) (db : WWeb.DbResult) :
    (JsMap.has st.qrTimeouts sessionId = true →
      (WWeb.onQr st sessionId qrImage sessionName .ok).1.qrTimeouts = st.qrTimeouts) ∧
    (JsMap.keyCount st.qrTimeouts sessionId = 0 →
      JsMap.keyCount (WWeb.onQr st sessionId qrImage sessionName .ok).1.qrTimeouts sessionId
        = 1) ∧
    ((WWeb.qrTimerFire st sessionId).2 = 1 ∧
      (WWeb.getSessionStatus (WWeb.qrTimerFire st sessionId).1 sessionId).status
        = "DISCONNECTED" ∧
      JsMap.has (WWeb.qrTimerFire st sessionId).1.qrTimeouts sessionId = false) ∧
    JsMap.has (WWeb.onReady st sessionId phone sessionName db).1.qrTimeouts sessionId
      = false := by
  refine ⟨fun h => ?_, fun h => ?_, ⟨rfl, ?_, ?_⟩, ?_⟩
  · simp [WWeb.onQr, h]
  · have hnot : JsMap.has st.qrTimeouts sessionId = false := by
      by_contra hc
      rw [Bool.not_eq_false, JsMap.has_iff_keyCount_pos] at hc
      omega
    simp [WWeb.onQr, hnot, JsMap.keyCount_set, h]
  · simp [WWeb.qrTimerFire, WWeb.stopClient, WWeb.getSessionStatus, JsMap.get_set_self]
  · simp [WWeb.qrTimerFire, WWeb.stopClient, JsMap.has_del_self]
  · cases db <;>
      simp [WWeb.onReady, WWeb.stopClient, JsMap.has_del_self]

/-- C4 witness at a concrete state with an armed timer. -/
theorem qr_timeout_reclamation_witness :
    (JsMap.has (WWeb.MState.mk [("s1", ())] [] [("s1", ())]).qrTimeouts "s1" = true →
      (WWeb.onQr ⟨[("s1", ())], [], [("s1", ())]⟩ "s1" "img" "n" .ok).1.qrTimeouts
        = [("s1", ())]) ∧
    (JsMap.keyCount (WWeb.MState.mk [("s1", ())] [] [("s1", ())]).qrTimeouts "s1" = 0 →
      JsMap.keyCount
        (WWeb.onQr ⟨[("s1", ())], [], [("s1", ())]⟩ "s1" "img" "n" .ok).1.qrTimeouts "s1"
        = 1) ∧
    ((WWeb.qrTimerFire ⟨[("s1", ())], [], [("s1", ())]⟩ "s1").2 = 1 ∧
      (WWeb.getSessionStatus (WWeb.qrTimerFire ⟨[("s1", ())], [], [("s1", ())]⟩ "s1").1
        "s1").status = "DISCONNECTED" ∧
      JsMap.has (WWeb.qrTimerFire ⟨[("s1", ())], [], [("s1", ())]⟩ "s1").1.qrTimeouts "s1"
        = false) ∧
    JsMap.has
      (WWeb.onReady ⟨[("s1", ())], [], [("s1", ())]⟩ "s1" "5511" "n" .ok).1.qrTimeouts "s1"
      = false :=
  qr_timeout_reclamation ⟨[("s1", ())], [], [("s1", ())]⟩ "s1" "img" "n" "5511" .ok

/-- Characters of `needle` lead the haystack list (needle is an initial
segment). -/
def charsLead : List Char → List Char → Bool
  | [], _ => true
  | _ :: _, [] => false
  | a :: as, b :: bs => a == b && charsLead as bs

/-- The haystack list has the needle as a contiguous segment somewhere. -/
def charsHave (needle : List Char) : List Char → Bool
  | [] => needle.isEmpty
  | c :: cs => charsLead needle (c :: cs) || charsHave needle cs

/-- JavaScript `String.prototype.includes`. -/
def strIncludes (hay needle : String) : Bool :=
  charsHave needle.data hay.data

namespace Baileys

/-- Process-local state of the Baileys-based `WhatsAppManager` variant:
the live socket map `sockets` (embedded by its key set) and the status
registry `sessions`. -/
structure BState where
  sockets : List (String × Unit)
  sessions : List (String × SessionInfo)
deriving Repr, DecidableEq

/-- Embeds `updateSessionState`: the single registry mutator. -/
def updateSessionState (st : BState) (sessionId : String) (info : SessionInfo) : BState :=
  { st with sessions := JsMap.set st.sessions sessionId info }

/-- Embeds `getSessionStatus`: registry lookup defaulting to DISCONNECTED. -/
def getSessionStatus (st : BState) (sessionId : String) : SessionInfo :=
  match JsMap.get st.sessions sessionId with
  | some info => info
  | none => ⟨"DISCONNECTED", none, none, ""⟩

/-- Externally visible primitive actions performed by `stopClient`, in
program order, used to state that handle removal precedes the
transport-level disconnect. -/
inductive Act where
  | removeHandle (sessionId : String)
  | transportEnd (sessionId : String)
  | setRegistry (sessionId : String) (info : SessionInfo)
  | persistStatus (sessionId status : String)
deriving Repr, DecidableEq

/-- The action trace of `stopClient(sessionId)`: when a socket is live the
method deletes it from the map first, then calls `sock.end`, then writes
DISCONNECTED to the registry and persists it; when no socket is live it
does nothing. -/
def stopClientActs (st : BState) (sessionId : String) : List Act :=
  if JsMap.has st.sockets sessionId then
    [Act.removeHandle sessionId, Act.transportEnd sessionId,
     Act.setRegistry sessionId ⟨"DISCONNECTED", none, none, ""⟩,
     Act.persistStatus sessionId "DISCONNECTED"]
  else []

/-- State effect of `stopClient(sessionId)`. -/
def stopClient (st : BState) (sessionId : String) : BState :=
  if JsMap.has st.sockets sessionId then
    let st1 : BState := { st with sockets := JsMap.del st.sockets sessionId }
    updateSessionState st1 sessionId ⟨"DISCONNECTED", none, none, ""⟩
  else st

/-- Value of `DisconnectReason.loggedOut` in the Baileys library. -/
def loggedOut : Nat := 401

/-- The QR-timeout / server-rejection test of the `connection.update`
close branch: message markers or status codes 408 / 428. -/
def isQrTimeout (statusCode : Option Nat) (errorMessage : String) : Bool :=
  strIncludes errorMessage "QR refs attempts ended" ||
  strIncludes errorMessage "Connection Terminated by Server" ||
  statusCode == some 408 || statusCode == some 428

/-- The reconnect decision: close was neither a logout nor a QR timeout. -/
def shouldReconnect (statusCode : Option Nat) (errorMessage : String) : Bool :=
  !(statusCode == some loggedOut) && !(isQrTimeout statusCode errorMessage)

/-- A delayed `startClient` retry scheduled by the close handler, with the
closure-captured parameters it will be invoked with. -/
structure RetryCall where
  tenantId : String
  sessionId : String
  sessionName : String
  linkedAgentId : Option String
deriving Repr, DecidableEq

/-- The `connection === 'close'` branch of the `connection.update`
handler: early return when the socket is no longer registered (our own
stop caused the close); otherwise delete the socket and either schedule
one delayed `startClient` retry with the captured parameters, or settle
the session as DISCONNECTED. The second component lists the scheduled
retries. -/
def onClose (st : BState) (tenantId sessionId sessionName : String)
    (linkedAgentId : Option String) (statusCode : Option Nat)
    (errorMessage : String) : BState × List RetryCall :=
  if !(JsMap.has st.sockets sessionId) then (st, [])
  else
    let st1 : BState := { st with sockets := JsMap.del st.sockets sessionId }
    if shouldReconnect statusCode errorMessage then
      (st1, [⟨tenantId, sessionId, sessionName, linkedAgentId⟩])
    else
      (updateSessionState st1 sessionId ⟨"DISCONNECTED", none, none, sessionName⟩, [])

/-- The synchronous prefix of the Baileys `startClient`: idempotency guard
on the socket map, existence check of the persisted session row, STARTING
registry write, socket registration. -/
def startClient (st : BState) (sessionId sessionName : String)
    (sessionExists : Bool) : BState :=
  if JsMap.has st.sockets sessionId then st
  else if !sessionExists then st
  else
    let st1 := updateSessionState st sessionId ⟨"STARTING", none, none, sessionName⟩
    { st1 with sockets := JsMap.set st1.sockets sessionId () }

/-- The QR branch of `connection.update`. -/
def onQrUpdate (st : BState) (sessionId qrImage sessionName : String) : BState :=
  updateSessionState st sessionId ⟨"QRCODE", some qrImage, none, sessionName⟩

/-- The `connection === 'open'` branch of `connection.update`. -/
def onOpen (st : BState) (sessionId user sessionName : String) : BState :=
  updateSessionState st sessionId ⟨"CONNECTED", none, some user, sessionName⟩

end Baileys

/-- **C2.** Clean stop suppresses reconnect: within `stopClient` the handle
removal precedes the transport-level disconnect in the action trace; after
`stopClient` the session id has no live socket; and every close event
arriving after the stop — whatever its status code and error message — is
dropped by the close handler without scheduling any reconnect and without
touching the state. -/
theorem clean_stop_suppresses_reconnect (st : Baileys.BState)
    (tenantId sessionId sessionName : String) (linkedAgentId : Option String)
    (statusCode : Option Nat) (errorMessage : String) :
    (JsMap.has st.sockets sessionId = true →
      List.indexOf (Baileys.Act.removeHandle sessionId)
          (Baileys.stopClientActs st sessionId) <
        List.indexOf (Baileys.Act.transportEnd sessionId)
          (Baileys.stopClientActs st sessionId)) ∧
    JsMap.has (Baileys.stopClient st sessionId).sockets sessionId = false ∧
    Baileys.onClose (Baileys.stopClient st sessionId) tenantId sessionId
        sessionName linkedAgentId statusCode errorMessage
      = (Baileys.stopClient st sessionId, []) := by
  have hgone : JsMap.has (Baileys.stopClient st sessionId).sockets sessionId = false := by
    by_cases h : JsMap.has st.sockets sessionId
    · simp [Baileys.stopClient, Baileys.updateSessionState, h, JsMap.has_del_self]
    · simp only [Bool.not_eq_true] at h
      simp [Baileys.stopClient, h]
  refine ⟨fun h => ?_, hgone, ?_⟩
  · have h1 : (Baileys.Act.removeHandle sessionId == Baileys.Act.transportEnd sessionId)
        = false := by
      rw [beq_eq_false_iff_ne]
      intro hc
      cases hc
    have h2 : (Baileys.Act.transportEnd sessionId == Baileys.Act.removeHandle sessionId)
        = false := by
      rw [beq_eq_false_iff_ne]
      intro hc
      cases hc
    simp [Baileys.stopClientActs, h, List.indexOf, List.findIdx, List.findIdx.go, h1, h2]
  · simp [Baileys.onClose, hgone]

/-- C2 witness at a concrete state with one live socket, closing with the
transient code 515 after a stop. -/
theorem clean_stop_suppresses_reconnect_witness :
    (JsMap.has (Baileys.BState.mk [("s1", ())] []).sockets "s1" = true →
      List.indexOf (Baileys.Act.removeHandle "s1")
          (Baileys.stopClientActs ⟨[("s1", ())], []⟩ "s1") <
        List.indexOf (Baileys.Act.transportEnd "s1")
          (Baileys.stopClientActs ⟨[("s1", ())], []⟩ "s1")) ∧
    JsMap.has (Baileys.stopClient ⟨[("s1", ())], []⟩ "s1").sockets "s1" = false ∧
    Baileys.onClose (Baileys.stopClient ⟨[("s1", ())], []⟩ "s1") "t1" "s1" "n" none
        (some 515) ""
      = (Baileys.stopClient ⟨[("s1", ())], []⟩ "s1", []) :=
  clean_stop_suppresses_reconnect ⟨[("s1", ())], []⟩ "t1" "s1" "n" none (some 515) ""

/-- **C3.** Reconnect vs terminal: while the socket is still registered, a
close whose status code is the logged-out code 401, one of the QR-timeout
codes 408/428, or whose error message carries a QR-timeout marker, leads to
no scheduled retry and a DISCONNECTED registry status; any other close
schedules exactly one delayed `startClient` retry carrying the captured
tenant id, session id, session name and linked agent id. -/
theorem reconnect_vs_terminal (st : Baileys.BState)
    (tenantId sessionId sessionName : String) (linkedAgentId : Option String)
    (statusCode : Option Nat) (errorMessage : String)
    (hlive : JsMap.has st.sockets sessionId = true) :
    ((statusCode = some 401 ∨ statusCode = some 408 ∨ statusCode = some 428 ∨
        strIncludes errorMessage "QR refs attempts ended" = true ∨
        strIncludes errorMessage "Connection Terminated by Server" = true) →
      (Baileys.onClose st tenantId sessionId sessionName linkedAgentId
          statusCode errorMessage).2 = [] ∧
      (Baileys.getSessionStatus
          (Baileys.onClose st tenantId sessionId sessionName linkedAgentId
            statusCode errorMessage).1 sessionId).status = "DISCONNECTED") ∧
    ((statusCode ≠ some 401 ∧ statusCode ≠ some 408 ∧ statusCode ≠ some 428 ∧
        strIncludes errorMessage "QR refs attempts ended" = false ∧
        strIncludes errorMessage "Connection Terminated by Server" = false) →
      (Baileys.onClose st tenantId sessionId sessionName linkedAgentId
          statusCode errorMessage).2
        = [⟨tenantId, sessionId, sessionName, linkedAgentId⟩]) := by
  constructor
  · intro h
    have hsr : Baileys.shouldReconnect statusCode errorMessage = false := by
      rcases h with h | h | h | h | h <;>
        simp [Baileys.shouldReconnect, Baileys.isQrTimeout, Baileys.loggedOut, h]
    simp [Baileys.onClose, hlive, hsr, Baileys.updateSessionState,
      Baileys.getSessionStatus, JsMap.get_set_self]
  · rintro ⟨h401, h408, h428, hm1, hm2⟩
    have hsr : Baileys.shouldReconnect statusCode errorMessage = true := by
      simp [Baileys.shouldReconnect, Baileys.isQrTimeout, Baileys.loggedOut,
        hm1, hm2, beq_eq_false_iff_ne.mpr h401, beq_eq_false_iff_ne.mpr h408,
        beq_eq_false_iff_ne.mpr h428]
    simp [Baileys.onClose, hlive, hsr]

/-- C3 witness: concrete live state; code 401 is terminal, code 515 with a
plain error message schedules one retry (checked by applying the theorem at
both codes). -/
theorem reconnect_vs_terminal_witness :
    ((Baileys.onClose ⟨[("s1", ())], []⟩ "t1" "s1" "n" (some "a1")
        (some 401) "logged out").2 = [] ∧
      (Baileys.getSessionStatus
          (Baileys.onClose ⟨[("s1", ())], []⟩ "t1" "s1" "n" (some "a1")
            (some 401) "logged out").1 "s1").status = "DISCONNECTED") ∧
    (Baileys.onClose ⟨[("s1", ())], []⟩ "t1" "s1" "n" (some "a1")
        (some 515) "restart required").2
      = [⟨"t1", "s1", "n", some "a1"⟩] := by
  constructor
  · exact (reconnect_vs_terminal ⟨[("s1", ())], []⟩ "t1" "s1" "n" (some "a1")
      (some 401) "logged out" (by decide)).1 (Or.inl rfl)
  · exact (reconnect_vs_terminal ⟨[("s1", ())], []⟩ "t1" "s1" "n" (some "a1")
      (some 515) "restart required" (by decide)).2
      ⟨by decide, by decide, by decide, by decide, by decide⟩

/-- Shape of a registry entry claimed by the status-shape invariant: the
QR image is present only in status QRCODE and the phone number only in
status CONNECTED (hence every CONNECTED entry has no QR image and every
DISCONNECTED entry has neither). -/
def shapeOk (info : SessionInfo) : Prop :=
  (info.qrCode ≠ none → info.status = "QRCODE") ∧
  (info.phoneNumber ≠ none → info.status = "CONNECTED")

/-- All registry entries of the whatsapp-web.js manager satisfy the shape. -/
def wwebRegistryOk (st : WWeb.MState) : Prop :=
  ∀ p ∈ st.sessions, shapeOk p.2

/-- All registry entries of the Baileys manager satisfy the shape. -/
def baileysRegistryOk (st : Baileys.BState) : Prop :=
  ∀ p ∈ st.sessions, shapeOk p.2

theorem registry_set_preserve {m : List (String × SessionInfo)} {k : String}
    {v : SessionInfo} (hm : ∀ p ∈ m, shapeOk p.2) (hv : shapeOk v) :
    ∀ p ∈ JsMap.set m k v, shapeOk p.2 := by
  intro p hp
  rcases JsMap.mem_set m k v p hp with h | h
  · rw [h]
    exact hv
  · exact hm p h

theorem shapeOk_no_extras (s n : String) : shapeOk ⟨s, none, none, n⟩ := by
  simp [shapeOk]

theorem shapeOk_qrcode (q n : String) : shapeOk ⟨"QRCODE", some q, none, n⟩ := by
  simp [shapeOk]

theorem shapeOk_connected (p n : String) : shapeOk ⟨"CONNECTED", none, some p, n⟩ := by
  simp [shapeOk]

/-- One externally triggered operation of the whatsapp-web.js manager. -/
inductive WEvent where
  | start (sessionId sessionName : String)
  | qr (sessionId qrImage sessionName : String) (db : WWeb.DbResult)
  | ready (sessionId phone sessionName : String) (db : WWeb.DbResult)
  | authFailure (sessionId : String)
  | disconnectedEv (sessionId sessionName : String)
  | timerFire (sessionId : String)
  | initFailure (sessionId sessionName : String)
  | stop (sessionId : String)

/-- Dispatch of one event to the corresponding handler. -/
def wstep (st : WWeb.MState) : WEvent → WWeb.MState
  | .start sid n => WWeb.startClient st sid n
  | .qr sid q n db => (WWeb.onQr st sid q n db).1
  | .ready sid p n db => (WWeb.onReady st sid p n db).1
  | .authFailure sid => (WWeb.onAuthFailure st sid).1
  | .disconnectedEv sid n => WWeb.onDisconnected st sid n
  | .timerFire sid => (WWeb.qrTimerFire st sid).1
  | .initFailure sid n => WWeb.onInitFailure st sid n
  | .stop sid => WWeb.stopClient st sid

/-- One externally triggered operation of the Baileys manager. -/
inductive BEvent where
  | start (sessionId sessionName : String) (sessionExists : Bool)
  | qr (sessionId qrImage sessionName : String)
  | connOpen (sessionId user sessionName : String)
  | close (tenantId sessionId sessionName : String) (linkedAgentId : Option String)
      (statusCode : Option Nat) (errorMessage : String)
  | stop (sessionId : String)

/-- Dispatch of one Baileys event to the corresponding handler. -/
def bstep (st : Baileys.BState) : BEvent → Baileys.BState
  | .start sid n ex => Baileys.startClient st sid n ex
  | .qr sid q n => Baileys.onQrUpdate st sid q n
  | .connOpen sid u n => Baileys.onOpen st sid u n
  | .close t sid n a code msg => (Baileys.onClose st t sid n a code msg).1
  | .stop sid => Baileys.stopClient st sid

theorem wweb_stopClient_shape {st : WWeb.MState} (h : wwebRegistryOk st)
    (sid : String) : wwebRegistryOk (WWeb.stopClient st sid) := by
  intro p hp
  simp only [WWeb.stopClient] at hp
  exact registry_set_preserve h
    (by cases JsMap.get st.sessions sid with
        | none => exact shapeOk_no_extras _ _
        | some info => dsimp only; split <;> exact shapeOk_no_extras _ _) p hp

theorem wweb_step_shape {st : WWeb.MState} (h : wwebRegistryOk st) (e : WEvent) :
    wwebRegistryOk (wstep st e) := by
  cases e with
  | start sid n =>
    by_cases hc : JsMap.has st.clients sid
    · simpa [wstep, WWeb.startClient, hc] using h
    · intro p hp
      simp only [wstep, WWeb.startClient, hc, Bool.false_eq_true, if_false] at hp
      exact registry_set_preserve h (shapeOk_no_extras _ _) p hp
  | qr sid q n db =>
    have h1 : wwebRegistryOk
        { st with sessions := JsMap.set st.sessions sid ⟨"QRCODE", some q, none, n⟩ } :=
      fun p hp => registry_set_preserve h (shapeOk_qrcode _ _) p hp
    cases db with
    | notFound => exact wweb_stopClient_shape h1 sid
    | ok =>
      by_cases ht : JsMap.has st.qrTimeouts sid <;>
        simpa [wstep, WWeb.onQr, ht] using h1
    | otherError =>
      by_cases ht : JsMap.has st.qrTimeouts sid <;>
        simpa [wstep, WWeb.onQr, ht] using h1
  | ready sid ph n db =>
    have h1 : wwebRegistryOk
        { st with
          qrTimeouts := JsMap.del st.qrTimeouts sid,
          sessions := JsMap.set st.sessions sid ⟨"CONNECTED", none, some ph, n⟩ } :=
      fun p hp => registry_set_preserve h (shapeOk_connected _ _) p hp
    cases db with
    | notFound => exact wweb_stopClient_shape h1 sid
    | ok => simpa [wstep, WWeb.onReady] using h1
    | otherError => simpa [wstep, WWeb.onReady] using h1
  | authFailure sid =>
    exact wweb_stopClient_shape (fun p hp => h p hp) sid
  | disconnectedEv sid n =>
    intro p hp
    simp only [wstep, WWeb.onDisconnected] at hp
    exact registry_set_preserve h (shapeOk_no_extras _ _) p hp
  | timerFire sid =>
    exact wweb_stopClient_shape h sid
  | initFailure sid n =>
    intro p hp
    simp only [wstep, WWeb.onInitFailure] at hp
    exact registry_set_preserve h (shapeOk_no_extras _ _) p hp
  | stop sid =>
    exact wweb_stopClient_shape h sid

theorem baileys_step_shape {st : Baileys.BState} (h : baileysRegistryOk st)
    (e : BEvent) : baileysRegistryOk (bstep st e) := by
  cases e with
  | start sid n ex =>
    by_cases hc : JsMap.has st.sockets sid
    · simpa [bstep, Baileys.startClient, hc] using h
    · cases ex with
      | false => simpa [bstep, Baileys.startClient, hc] using h
      | true =>
        intro p hp
        simp only [bstep, Baileys.startClient, Baileys.updateSessionState, hc,
          Bool.false_eq_true, if_false, Bool.not_true] at hp
        exact registry_set_preserve h (shapeOk_no_extras _ _) p hp
  | qr sid q n =>
    intro p hp
    simp only [bstep, Baileys.onQrUpdate, Baileys.updateSessionState] at hp
    exact registry_set_preserve h (shapeOk_qrcode _ _) p hp
  | connOpen sid u n =>
    intro p hp
    simp only [bstep, Baileys.onOpen, Baileys.updateSessionState] at hp
    exact registry_set_preserve h (shapeOk_connected _ _) p hp
  | close t sid n a code msg =>
    by_cases hc : JsMap.has st.sockets sid
    · by_cases hr : Baileys.shouldReconnect code msg
      · simpa [bstep, Baileys.onClose, hc, hr] using h
      · intro p hp
        simp only [bstep, Baileys.onClose, Baileys.updateSessionState, hc, hr,
          Bool.not_true, Bool.false_eq_true, if_false] at hp
        exact registry_set_preserve h (shapeOk_no_extras _ _) p hp
    · simp only [Bool.not_eq_true] at hc
      simpa [bstep, Baileys.onClose, hc] using h
  | stop sid =>
    by_cases hc : JsMap.has st.sockets sid
    · intro p hp
      simp only [bstep, Baileys.stopClient, Baileys.updateSessionState, hc, if_true] at hp
      exact registry_set_preserve h (shapeOk_no_extras _ _) p hp
    · simp only [Bool.not_eq_true] at hc
      simpa [bstep, Baileys.stopClient, hc] using h

/-- Run of the whatsapp-web.js manager from a state through events. -/
def wrun (st : WWeb.MState) : List WEvent → WWeb.MState
  | [] => st
  | e :: es => wrun (wstep st e) es

/-- Run of the Baileys manager from a state through events. -/
def brun (st : Baileys.BState) : List BEvent → Baileys.BState
  | [] => st
  | e :: es => brun (bstep st e) es

/-- **C10.** Registry status-shape invariant: after any sequence of
operations of either manager from the fresh (empty-registry) state, every
registry entry has its QR image present only in status QRCODE and its
phone number only in status CONNECTED; consequently CONNECTED entries
carry no QR image and DISCONNECTED entries carry neither. -/
theorem registry_status_shape (ws : List WEvent) (bs : List BEvent) :
    wwebRegistryOk (wrun ⟨[], [], []⟩ ws) ∧ baileysRegistryOk (brun ⟨[], []⟩ bs) := by
  constructor
  · have : ∀ (es : List WEvent) (st : WWeb.MState),
        wwebRegistryOk st → wwebRegistryOk (wrun st es) := by
      intro es
      induction es with
      | nil => intro st h; exact h
      | cons e es ih => intro st h; exact ih _ (wweb_step_shape h e)
    exact this ws _ (by intro p hp; cases hp)
  · have : ∀ (es : List BEvent) (st : Baileys.BState),
        baileysRegistryOk st → baileysRegistryOk (brun st es) := by
      intro es
      induction es with
      | nil => intro st h; exact h
      | cons e es ih => intro st h; exact ih _ (baileys_step_shape h e)
    exact this bs _ (by intro p hp; cases hp)

/-- A persisted chat message row as read back for history assembly. -/
structure DbMessage where
  role : String
  content : String
deriving Repr, DecidableEq

/-- One turn handed to the completion API (`Content` with a single text
part). -/
structure ContentTurn where
  role : String
  text : String
deriving Repr, DecidableEq

/-- The `while (rawHistory.length > 0 && rawHistory[0].role === 'model')
rawHistory.shift()` loop of the message handler. -/
def dropLeadingModel : List DbMessage → List DbMessage
  | [] => []
  | m :: rest => if m.role = "model" then dropLeadingModel rest else m :: rest

/-- History assembly of the message handler: reverse the most-recent-first
window into chronological order, drop every row whose content equals the
just-persisted inbound body, trim leading assistant rows, and map to
completion-API turns (`role === 'user' ? 'user' : 'model'`). -/
def assembleHistory (previousMessages : List DbMessage) (body : String) :
    List ContentTurn :=
  let rawHistory := previousMessages.reverse
  let rawHistory := rawHistory.filter (fun m => m.content ≠ body)
  let rawHistory := dropLeadingModel rawHistory
  rawHistory.map (fun m => ⟨if m.role = "user" then "user" else "model", m.content⟩)

theorem dropLeadingModel_head :
    ∀ l : List DbMessage, ∀ m, (dropLeadingModel l).head? = some m → m.role ≠ "model" := by
  intro l
  induction l with
  | nil => intro m hm; simp [dropLeadingModel] at hm
  | cons x xs ih =>
    intro m hm
    by_cases h : x.role = "model"
    · exact ih m (by simpa [dropLeadingModel, h] using hm)
    · simp [dropLeadingModel, h] at hm
      rw [← hm]
      exact h

theorem dropLeadingModel_subset :
    ∀ l : List DbMessage, ∀ m ∈ dropLeadingModel l, m ∈ l := by
  intro l
  induction l with
  | nil => simp [dropLeadingModel]
  | cons x xs ih =>
    intro m hm
    by_cases h : x.role = "model"
    · exact List.mem_cons_of_mem _ (ih m (by simpa [dropLeadingModel, h] using hm))
    · simpa [dropLeadingModel, h] using hm

theorem dropLeadingModel_all_model :
    ∀ l : List DbMessage, (∀ m ∈ l, m.role = "model") → dropLeadingModel l = [] := by
  intro l
  induction l with
  | nil => intro _; rfl
  | cons x xs ih =>
    intro h
    have hx := h x (List.mem_cons_self _ _)
    simp [dropLeadingModel, hx]
    exact ih fun m hm => h m (List.mem_cons_of_mem _ hm)

/-- **C5.** History trimming invariant: provided the persisted window only
holds rows the pipeline itself wrote (role `user` or `model`), the first
turn of the assembled history is never a `model` turn; and a window that is
empty or entirely `model`-authored assembles to the empty history. -/
theorem history_trimming (previousMessages : List DbMessage) (body : String)
    (hroles : ∀ m ∈ previousMessages, m.role = "user" ∨ m.role = "model") :
    (∀ t, (assembleHistory previousMessages body).head? = some t → t.role ≠ "model") ∧
    ((∀ m ∈ previousMessages, m.role = "model") →
      assembleHistory previousMessages body = []) := by
  constructor
  · intro t ht
    simp only [assembleHistory, List.head?_map] at ht
    obtain ⟨m, hm, hmap⟩ := Option.map_eq_some'.mp ht
    have hnotmodel : m.role ≠ "model" := dropLeadingModel_head _ m hm
    have hmem : m ∈ previousMessages := by
      have h1 := dropLeadingModel_subset _ m (List.mem_of_mem_head? hm)
      have h2 := List.mem_of_mem_filter h1
      exact List.mem_reverse.mp h2
    have huser : m.role = "user" := by
      rcases hroles m hmem with h | h
      · exact h
      · exact absurd h hnotmodel
    rw [← hmap]
    simp [huser]
  · intro hall
    have hnil : dropLeadingModel
        ((previousMessages.reverse).filter (fun m => m.content ≠ body)) = [] := by
      apply dropLeadingModel_all_model
      intro m hm
      exact hall m (List.mem_reverse.mp (List.mem_of_mem_filter hm))
    simp only [assembleHistory]
    rw [hnil]
    rfl

/-- C5 witness: a window ending (chronologically starting) with an orphan
assistant row. -/
theorem history_trimming_witness :
    (∀ t, (assembleHistory
        [⟨"user", "oi"⟩, ⟨"model", "olá"⟩] "oi").head? = some t → t.role ≠ "model") ∧
    ((∀ m ∈ [DbMessage.mk "user" "oi", DbMessage.mk "model" "olá"], m.role = "model") →
      assembleHistory [⟨"user", "oi"⟩, ⟨"model", "olá"⟩] "oi" = []) :=
  history_trimming [⟨"user", "oi"⟩, ⟨"model", "olá"⟩] "oi" (by decide)

/-- JS truthiness of an optional string: `null`, `undefined` and `""` are
falsy. -/
def truthyStr : Option String → Option String
  | some s => if s = "" then none else some s
  | none => none

/-- Characters of `remoteJid.split('@')[0]`: the segment up to the first `@`. -/
def takeUntilChar (c : Char) : List Char → List Char
  | [] => []
  | x :: xs => if x == c then [] else x :: takeUntilChar c xs

/-- Head component of a JS `split` on one separator character. -/
def jsSplitHead (s : String) (c : Char) : String :=
  ⟨takeUntilChar c s.data⟩

/-- Embeds `msg.pushName || 'Cliente'`. -/
def jsName (pushName : Option String) : String :=
  match truthyStr pushName with
  | some n => n
  | none => "Cliente"

/-- One element of a `messages.upsert` batch, with the fields the handler
inspects. -/
structure InboundMsg where
  hasMessage : Bool
  fromMe : Bool
  remoteJid : String
  pushName : Option String
  conversation : Option String
  extendedText : Option String
deriving Repr, DecidableEq

/-- Embeds `msg.message.conversation || msg.message.extendedTextMessage?.text`
followed by the handler's `if (!text) continue` truthiness test: the text
the pipeline proceeds with, if any. -/
def extractText (m : InboundMsg) : Option String :=
  match truthyStr m.conversation with
  | some s => some s
  | none => truthyStr m.extendedText

/-- Persistence writes and outbound sends a single message's processing
performs. -/
inductive Effect where
  | customerUpsert (tenantId phone name : String)
  | messageCreate (tenantId customerId role content : String)
  | sendMessage (jid text : String)
deriving Repr, DecidableEq

/-- The collaborators one message's processing consults: the
closure-captured linked agent id, the first tenant agent flagged active
(if any), the id of the row the customer upsert yields, and the text the
completion call returns (if any). -/
structure PipelineEnv where
  linkedAgentId : Option String
  activeAgentId : Option String
  customerId : String
  aiResponse : Option String
deriving Repr, DecidableEq

/-- The per-message body of the Baileys `messages.upsert` handler: filter
guards (missing payload, self-echo, group, broadcast/status, no
extractable text), customer upsert, inbound persistence, agent
resolution with silent termination when no agent is available, and—when
an agent answered—reply send plus assistant-row persistence. -/
def processMessage (tenantId : String) (env : PipelineEnv) (msg : InboundMsg) :
    List Effect :=
  if !msg.hasMessage then []
  else if msg.fromMe then []
  else if strIncludes msg.remoteJid "@g.us" || msg.remoteJid = "status@broadcast" then []
  else
    let phone := jsSplitHead msg.remoteJid '@'
    let name := jsName msg.pushName
    match extractText msg with
    | none => []
    | some text =>
      let base := [Effect.customerUpsert tenantId phone name,
                   Effect.messageCreate tenantId env.customerId "user" text]
      let agentIdToUse :=
        match truthyStr env.linkedAgentId with
        | some a => some a
        | none => truthyStr env.activeAgentId
      match agentIdToUse with
      | none => base
      | some _ =>
        match env.aiResponse with
        | some r =>
          base ++ [Effect.sendMessage msg.remoteJid r,
                   Effect.messageCreate tenantId env.customerId "model" r]
        | none => base

/-- **C6.** Inbound filtering: a message with no payload, a self-originated
echo, a group or broadcast/status origin, or no extractable text body
produces zero persistence writes and zero replies — the pipeline emits no
effect at all. -/
theorem inbound_filtering (tenantId : String) (env : PipelineEnv) (msg : InboundMsg)
    (h : msg.hasMessage = false ∨ msg.fromMe = true ∨
      strIncludes msg.remoteJid "@g.us" = true ∨ msg.remoteJid = "status@broadcast" ∨
      extractText msg = none) :
    processMessage tenantId env msg = [] := by
  rcases h with h | h | h | h | h <;>
    simp [processMessage, h]

/-- C6 witness: a group-originated message is dropped. -/
theorem inbound_filtering_witness :
    processMessage "t1" ⟨none, none, "c1", none⟩
      ⟨true, false, "123-456@g.us", some "Bob", some "oi", none⟩ = [] :=
  inbound_filtering "t1" ⟨none, none, "c1", none⟩
    ⟨true, false, "123-456@g.us", some "Bob", some "oi", none⟩
    (Or.inr (Or.inr (Or.inl (by decide))))

/-- **C7.** Paused-agent termination: a passing inbound text whose session
has no pinned agent and whose tenant has no active agent persists the
customer upsert and the inbound user row — in that order, and nothing
else: no outbound send, no assistant-role row, and the pipeline returns
normally. -/
theorem paused_agent_termination (tenantId text : String) (env : PipelineEnv)
    (msg : InboundMsg) (hmsg : msg.hasMessage = true) (hfrom : msg.fromMe = false)
    (hgroup : strIncludes msg.remoteJid "@g.us" = false)
    (hbcast : msg.remoteJid ≠ "status@broadcast")
    (htext : extractText msg = some text)
    (hlinked : truthyStr env.linkedAgentId = none)
    (hactive : truthyStr env.activeAgentId = none) :
    processMessage tenantId env msg
      = [Effect.customerUpsert tenantId (jsSplitHead msg.remoteJid '@')
           (jsName msg.pushName),
         Effect.messageCreate tenantId env.customerId "user" text] ∧
    (∀ e ∈ processMessage tenantId env msg,
      (∀ jid r, e ≠ Effect.sendMessage jid r) ∧
      (∀ cid r, e ≠ Effect.messageCreate tenantId cid "model" r)) := by
  have hrun : processMessage tenantId env msg
      = [Effect.customerUpsert tenantId (jsSplitHead msg.remoteJid '@')
           (jsName msg.pushName),
         Effect.messageCreate tenantId env.customerId "user" text] := by
    simp [processMessage, hmsg, hfrom, hgroup, hbcast, htext, hlinked, hactive]
  refine ⟨hrun, ?_⟩
  rw [hrun]
  intro e he
  simp only [List.mem_cons, List.not_mem_nil, or_false] at he
  rcases he with he | he
  · subst he
    exact ⟨fun jid r => by simp, fun cid r => by simp⟩
  · subst he
    exact ⟨fun jid r => by simp, fun cid r => by simp⟩

/-- C7 witness: the "Quero cortar cabelo" scenario with no pinned and no
active agent. -/
theorem paused_agent_termination_witness :
    processMessage "t1" ⟨none, none, "c1", none⟩
        ⟨true, false, "5511999990000@s.whatsapp.net", some "Ana",
          some "Quero cortar cabelo", none⟩
      = [Effect.customerUpsert "t1" "5511999990000" "Ana",
         Effect.messageCreate "t1" "c1" "user" "Quero cortar cabelo"] ∧
    (∀ e ∈ processMessage "t1" ⟨none, none, "c1", none⟩
        ⟨true, false, "5511999990000@s.whatsapp.net", some "Ana",
          some "Quero cortar cabelo", none⟩,
      (∀ jid r, e ≠ Effect.sendMessage jid r) ∧
      (∀ cid r, e ≠ Effect.messageCreate "t1" cid "model" r)) :=
  paused_agent_termination "t1" "Quero cortar cabelo" ⟨none, none, "c1", none⟩
    ⟨true, false, "5511999990000@s.whatsapp.net", some "Ana",
      some "Quero cortar cabelo", none⟩
    rfl rfl (by decide) (by decide) rfl rfl rfl

/-- The log line the catch block of the message handler emits. -/
def handlerLog (e : String) : String :=
  "❌ [WhatsApp] Erro message handler: " ++ e

/-- The per-message isolation boundary of the message handler
(`try { … } catch (err) { logger.error(…) }`): given the effects the body
performed before finishing or crashing, and the crash if one happened, the
boundary yields the performed effects, the emitted log lines, and whether
an exception escaped to the batch handler. The catch block only logs: it
attempts no apology reply and rethrows nothing. -/
def messageBoundary (performed : List Effect) (failure : Option String) :
    List Effect × List String × Bool :=
  match failure with
  | none => (performed, [], false)
  | some e => (performed, [handlerLog e], false)

/-- A whole inbound batch: each message runs inside its own boundary; the
batch accumulates effects and log lines in order. -/
def processBatch (items : List (List Effect × Option String)) :
    List Effect × List String :=
  match items with
  | [] => ([], [])
  | item :: rest =>
    let r := messageBoundary item.1 item.2
    let rr := processBatch rest
    (r.1 ++ rr.1, r.2.1 ++ rr.2)

/-- **C8, counterexample.** A message whose processing crashes with
`"boom"` before performing any effect leaves the boundary with no
outbound send at all — in particular no generic apology reply is sent
back, contrary to the claim. -/
theorem no_apology_on_failure :
    ¬ ∃ jid text, Effect.sendMessage jid text ∈ (messageBoundary [] (some "boom")).1 := by
  rintro ⟨jid, text, h⟩
  simp [messageBoundary] at h

/-- **C8, amended.** Per-message failure isolation without apology: every
crash is caught at the per-message boundary and logged there — the batch
keeps every sibling's effects, gains exactly one log line per crashed
message, and no exception ever escapes a boundary. -/
theorem per_message_failure_isolation
    (items : List (List Effect × Option String)) :
    (processBatch items).1 = (items.map Prod.fst).flatten ∧
    (processBatch items).2
      = (items.map (fun item =>
          match item.2 with
          | none => ([] : List String)
          | some e => [handlerLog e])).flatten ∧
    ∀ performed failure, (messageBoundary performed failure).2.2 = false := by
  refine ⟨?_, ?_, fun performed failure => by cases failure <;> rfl⟩
  · induction items with
    | nil => rfl
    | cons item rest ih =>
      obtain ⟨performed, failure⟩ := item
      cases failure <;>
        simp [processBatch, messageBoundary, ih]
  · induction items with
    | nil => rfl
    | cons item rest ih =>
      obtain ⟨performed, failure⟩ := item
      cases failure <;>
        simp [processBatch, messageBoundary, ih]

namespace Auth

/-- The stored auth-key rows of one session: key id ↦ (type, value). -/
abbrev KeyDb := List (String × (String × String))

/-- One operation queued by the batched `keys.set`. -/
inductive Task where
  | upsert (keyId ty value : String)
  | deleteKey (keyId : String)
deriving Repr, DecidableEq

/-- Inner loop of `keys.set`: a truthy value queues an upsert, a
null/undefined one queues a `deleteMany`, in iteration order. -/
def buildCat (category : String) : List (String × Option String) → List Task
  | [] => []
  | (id, value) :: rest =>
    (match value with
     | some v => [Task.upsert id category v]
     | none => [Task.deleteKey id]) ++ buildCat category rest

/-- Outer loop of `keys.set`: categories whose data object is null are
skipped (`if (!categoryData) continue`). -/
def buildTasks : List (String × Option (List (String × Option String))) → List Task
  | [] => []
  | (category, categoryData) :: rest =>
    (match categoryData with
     | none => []
     | some d => buildCat category d) ++ buildTasks rest

/-- Database effect of one task: the Prisma upsert keeps the stored type
on update and sets it on create; `deleteMany` removes the row and is a
no-op when the row is already absent. -/
def applyTask (db : KeyDb) : Task → KeyDb
  | .upsert id ty v =>
    match JsMap.get db id with
    | some (ty0, _) => JsMap.set db id (ty0, v)
    | none => JsMap.set db id (ty, v)
  | .deleteKey id => JsMap.del db id

/-- Embeds `prisma.$transaction(tasks)`: on success all tasks apply atomically;
on an injected failure the database is untouched and the error code is
reported. -/
def runTransaction (db : KeyDb) (tasks : List Task) (failure : Option String) :
    Except String KeyDb :=
  match failure with
  | none => .ok (tasks.foldl applyTask db)
  | some code => .error code

/-- The audit log line for a non-benign synchronization failure. -/
def syncErrorLog : String := "❌ Erro ao sincronizar chaves do Baileys no banco"

/-- Embeds `keys.set`: build the task batch, run it in a single transaction when
non-empty, swallow a P2025 (record already absent) failure silently and
log any other failure; nothing is rethrown in either case. -/
def keysSet (db : KeyDb)
    (data : List (String × Option (List (String × Option String))))
    (failure : Option String) : KeyDb × List String :=
  let tasks := buildTasks data
  if tasks.length > 0 then
    match runTransaction db tasks failure with
    | .ok db2 => (db2, [])
    | .error code => (db, if code = "P2025" then [] else [syncErrorLog])
  else (db, [])

end Auth

/-- **C9.** Credential-store atomicity: a credential-rotation batch either
applies all its upserts and deletes or none of them (all-or-nothing); a
successful transaction applies every task; a P2025 record-already-absent
failure is swallowed without any error report; and any other transaction
failure leaves the store untouched and is logged (one audit line when the
batch held work) instead of being propagated. -/
theorem credential_store_atomicity (db : Auth.KeyDb)
    (data : List (String × Option (List (String × Option String))))
    (failure : Option String) (code : String) :
    ((Auth.keysSet db data failure).1
        = (Auth.buildTasks data).foldl Auth.applyTask db ∨
      (Auth.keysSet db data failure).1 = db) ∧
    (Auth.keysSet db data none).1 = (Auth.buildTasks data).foldl Auth.applyTask db ∧
    Auth.keysSet db data (some "P2025") = (db, []) ∧
    (code ≠ "P2025" →
      (Auth.keysSet db data (some code)).1 = db ∧
      (Auth.buildTasks data ≠ [] →
        (Auth.keysSet db data (some code)).2 = [Auth.syncErrorLog])) := by
  refine ⟨?_, ?_, ?_, fun hcode => ⟨?_, fun hne => ?_⟩⟩
  · cases htasks : Auth.buildTasks data with
    | nil => right; simp [Auth.keysSet, htasks]
    | cons t ts =>
      cases failure with
      | none => left; simp [Auth.keysSet, htasks, Auth.runTransaction]
      | some c => right; simp [Auth.keysSet, htasks, Auth.runTransaction]
  · cases htasks : Auth.buildTasks data with
    | nil => simp [Auth.keysSet, htasks]
    | cons t ts => simp [Auth.keysSet, htasks, Auth.runTransaction]
  · cases htasks : Auth.buildTasks data with
    | nil => simp [Auth.keysSet, htasks]
    | cons t ts => simp [Auth.keysSet, htasks, Auth.runTransaction]
  · cases htasks : Auth.buildTasks data with
    | nil => simp [Auth.keysSet, htasks]
    | cons t ts => simp [Auth.keysSet, htasks, Auth.runTransaction]
  · cases htasks : Auth.buildTasks data with
    | nil => exact absurd htasks hne
    | cons t ts => simp [Auth.keysSet, htasks, Auth.runTransaction, hcode]

/-- C9 witness: a one-upsert-one-delete rotation batch, checked under a
successful transaction and under a non-benign failure code. -/
theorem credential_store_atomicity_witness :
    ((Auth.keysSet [("k2", ("session", "old"))]
        [("session", some [("k1", some "v1"), ("k2", none)])] none).1
        = (Auth.buildTasks [("session", some [("k1", some "v1"), ("k2", none)])]).foldl
            Auth.applyTask [("k2", ("session", "old"))] ∨
      (Auth.keysSet [("k2", ("session", "old"))]
        [("session", some [("k1", some "v1"), ("k2", none)])] none).1
        = [("k2", ("session", "old"))]) ∧
    (Auth.keysSet [("k2", ("session", "old"))]
        [("session", some [("k1", some "v1"), ("k2", none)])] none).1
      = (Auth.buildTasks [("session", some [("k1", some "v1"), ("k2", none)])]).foldl
          Auth.applyTask [("k2", ("session", "old"))] ∧
    Auth.keysSet [("k2", ("session", "old"))]
        [("session", some [("k1", some "v1"), ("k2", none)])] (some "P2025")
      = ([("k2", ("session", "old"))], []) ∧
    ("P1001" ≠ "P2025" →
      (Auth.keysSet [("k2", ("session", "old"))]
          [("session", some [("k1", some "v1"), ("k2", none)])] (some "P1001")).1
        = [("k2", ("session", "old"))] ∧
      (Auth.buildTasks [("session", some [("k1", some "v1"), ("k2", none)])] ≠ [] →
        (Auth.keysSet [("k2", ("session", "old"))]
            [("session", some [("k1", some "v1"), ("k2", none)])] (some "P1001")).2
          = [Auth.syncErrorLog])) :=
  credential_store_atomicity [("k2", ("session", "old"))]
    [("session", some [("k1", some "v1"), ("k2", none)])] none "P1001"
